import Mathlib

/-!
Shallow embedding of the hybrid signing pipeline
(src/identity_storage/src/storage/hybrid_jws_document_ext.rs) and of the JPT
credential validator
(src/identity_credential/src/validator/jpt_credential_validation/jpt_credential_validator.rs).

Rust strings are modelled as lists of characters, byte strings as lists of
naturals, asynchronous fallible calls into the external key stores and codecs
as explicit environment records of result-valued functions, and the mutable
document / key-store / key-id-store triple as an explicit state record that is
threaded through the key-generation operation.
-/

set_option maxHeartbeats 1600000

/-- Rust string slices are modelled as lists of characters. -/
abbrev Str := List Char

/-- A JSON Web Key; only the optional kid parameter is relevant to the code
under verification. -/
structure Jwk where
  kid : Option Str
deriving DecidableEq

/-- A DID URL: the DID part plus an optional fragment (stored without the
leading hash character, as in the identity library). -/
structure DIDUrl where
  did : Str
  fragment : Option Str
deriving DecidableEq

/-- Rendering of a DID URL to a string, as done by to_string on method ids. -/
def didUrlToString (u : DIDUrl) : Str :=
  match u.fragment with
  | none => u.did
  | some f => u.did ++ '#' :: f

/-- Method scopes (relationships) of a DID document. -/
inductive MethodScope
  | verificationMethod
  | authentication
  | assertionMethod
deriving DecidableEq

/-- The closed enumeration of composite algorithm identifiers. -/
inductive CompositeAlgId
  | idMldsa44Ed25519Sha512
  | idMldsa65Ed25519Sha512
deriving DecidableEq

/-- Method data: either a composite public key or a plain public JWK. -/
inductive MethodData
  | compositePublicKey (algId : CompositeAlgId) (tJwk pqJwk : Jwk)
  | publicKeyJwk (jwk : Jwk)
deriving DecidableEq

/-- Accessor mirroring MethodData::public_key_jwk, which yields a JWK only for
the plain public-key variant. -/
def MethodData.publicKeyJwkOpt : MethodData → Option Jwk
  | .publicKeyJwk k => some k
  | _ => none

/-- A verification method of a DID document. -/
structure VerificationMethod where
  id : DIDUrl
  controller : Str
  typ : Str
  data : MethodData
deriving DecidableEq

/-- A DID document: its DID and its verification methods, each carrying the
scope it was inserted under. -/
structure Document where
  did : Str
  methods : List (VerificationMethod × MethodScope)
deriving DecidableEq

/-- Modelled from the spec: CoreDocument::insert_method fails when a method
with the same id is already present, and otherwise appends the method under
the given scope. -/
def Document.insertMethod (doc : Document) (m : VerificationMethod) (scope : MethodScope) :
    Except Unit Document :=
  if doc.methods.any (fun p => p.1.id == m.id) then .error ()
  else .ok { doc with methods := doc.methods ++ [(m, scope)] }

/-- Modelled from the spec: CoreDocument::remove_method removes the method with
the given id. -/
def Document.removeMethod (doc : Document) (id : DIDUrl) : Document :=
  { doc with methods := doc.methods.filter (fun p => !(p.1.id == id)) }

/-- Drop a single leading hash character from a fragment query. -/
def stripHash : Str → Str
  | '#' :: rest => rest
  | s => s

/-- Modelled from the spec: CoreDocument::resolve_method with a fragment query
finds the method whose id has that fragment. -/
def Document.resolveMethodFragment (doc : Document) (fragment : Str) :
    Option VerificationMethod :=
  (doc.methods.find? (fun p => p.1.id.fragment == some (stripHash fragment))).map (·.1)

/-- Modelled from the spec: CoreDocument::resolve_method with a DID URL query
and an optional scope restriction. -/
def Document.resolveMethodUrl (doc : Document) (url : DIDUrl) (scope : Option MethodScope) :
    Option VerificationMethod :=
  (doc.methods.find? (fun p =>
    p.1.id == url && (match scope with
      | none => true
      | some s => p.2 == s))).map (·.1)

/-- Opaque JSON objects (custom header parameters, custom claims) are modelled
as atoms. -/
abbrev Object := Nat

/-- Inner errors of verification-method construction, mirroring the
identity_verification error variants wrapped by the storage error. -/
inductive VerificationError
  | invalidMethod (msg : String)
  | didUrlConstructionError
  | missingIdFragment
  | builderFailed
deriving DecidableEq

/-- The storage-document error type (JwkStorageDocumentError). -/
inductive Error
  | keyStorageError
  | keyIdStorageError
  | verificationMethodConstructionError (e : VerificationError)
  | methodDigestConstructionError
  | fragmentAlreadyExists
  | methodNotFound
  | notCompositePublicKey
  | invalidJwsAlgorithm
  | encodingError (msg : String)
  | claimsSerializationError
  | undoOperationFailed (source : Error)
deriving DecidableEq

/-- Environment of the key-generation operation: the outcomes of the external
key-store calls and of the fallible external constructors. -/
structure GenEnv where
  tGenResult : Except Unit (Str × Jwk)
  pqGenResult : Except Unit (Str × Jwk)
  buildFails : Bool
  digestFails : Bool
  insertKeyIdFails : Bool
  deleteFails : Str → Bool

/-- The mutable state visible to generate_method_hybrid: the DID document, the
set of keys held by the key storage, and the key-id storage mapping method
digests (modelled by the method itself, since the digest is a deterministic
function of the method) to stored key-id strings. -/
structure GenState where
  doc : Document
  keyStore : List Str
  keyIdStore : List (VerificationMethod × Str)
deriving DecidableEq

/-- Modelled from the spec: try_undo_key_generation (declared in
identity_storage but outside src/) deletes a freshly generated key and, when
the deletion itself fails, reports that failure wrapping the original error;
otherwise it returns the original error unchanged. -/
def tryUndoKeyGeneration (env : GenEnv) (st : GenState) (keyId : Str) (source : Error) :
    Error × GenState :=
  if env.deleteFails keyId then
    (Error.undoOperationFailed source, st)
  else
    (source, { st with keyStore := st.keyStore.filter (fun k => !(k == keyId)) })

/-- The rollback sequence used on the error paths of
generate_method_hybrid_core_document: undo the classical key, then the
post-quantum key, threading the error. -/
def rollbackBoth (env : GenEnv) (st : GenState) (tKeyId pqKeyId : Str) (source : Error) :
    Except Error Str × GenState :=
  let r1 := tryUndoKeyGeneration env st tKeyId source
  let r2 := tryUndoKeyGeneration env r1.2 pqKeyId r1.1
  (.error r2.1, r2.2)

/-- The composite fragment derived from the kid parameters of the two
generated JWKs (lines 60 to 66 of hybrid_jws_document_ext.rs). -/
def compositeFragmentOf (tJwk pqJwk : Jwk) : Option Str :=
  (tJwk.kid.orElse (fun _ => pqJwk.kid)).map (fun s =>
    match tJwk.kid, pqJwk.kid with
    | some s1, some s2 => s1 ++ '~' :: s2
    | _, _ => s)

/-- Modelled from the spec: DID-URL construction by joining a document id with
a hash-prefixed fragment; per RFC 3986 (referenced by the spec) the fragment
part may not contain a hash character, and it must be nonempty. -/
def joinFragment (did : Str) (frag : Str) : Except Unit DIDUrl :=
  match frag with
  | '#' :: rest =>
    if rest ≠ [] ∧ rest.all (fun c => !(c == '#')) then .ok ⟨did, some rest⟩
    else .error ()
  | _ => .error ()

/-- Shallow embedding of generate_method_hybrid_core_document
(hybrid_jws_document_ext.rs, lines 31 to 150): generates the two keypairs,
resolves and normalizes the fragment, builds the composite verification
method, inserts it into the document, and records the paired key id, rolling
back on the failure paths exactly where the source does. -/
def generateMethodHybrid (env : GenEnv) (st : GenState) (algId : CompositeAlgId)
    (fragment : Option Str) (scope : MethodScope) : Except Error Str × GenState :=
  match env.tGenResult with
  | .error _ => (.error .keyStorageError, st)
  | .ok (tKeyId, tJwk) =>
    let st1 : GenState := { st with keyStore := st.keyStore ++ [tKeyId] }
    match env.pqGenResult with
    | .error _ => (.error .keyStorageError, st1)
    | .ok (pqKeyId, pqJwk) =>
      let st2 : GenState := { st1 with keyStore := st1.keyStore ++ [pqKeyId] }
      let compositeKid : Str := tKeyId ++ '~' :: pqKeyId
      match fragment.orElse (fun _ => compositeFragmentOf tJwk pqJwk) with
      | none =>
        (.error (.verificationMethodConstructionError
          (.invalidMethod "an explicit fragment or JWK kid is required")), st2)
      | some givenFragment =>
        let frag : Str :=
          match givenFragment with
          | '#' :: _ => givenFragment
          | _ => '#' :: givenFragment
        match joinFragment st2.doc.did frag with
        | .error _ =>
          (.error (.verificationMethodConstructionError .didUrlConstructionError), st2)
        | .ok id =>
          let method : VerificationMethod :=
            { id := id, controller := st2.doc.did,
              typ := "CompositeSignaturePublicKey".toList,
              data := .compositePublicKey algId tJwk pqJwk }
          if env.buildFails then
            rollbackBoth env st2 tKeyId pqKeyId
              (.verificationMethodConstructionError .builderFailed)
          else if env.digestFails then
            (.error .methodDigestConstructionError, st2)
          else
            match method.id.fragment with
            | none =>
              (.error (.verificationMethodConstructionError .missingIdFragment), st2)
            | some fragStr =>
              match st2.doc.insertMethod method scope with
              | .error _ =>
                rollbackBoth env st2 tKeyId pqKeyId .fragmentAlreadyExists
              | .ok doc2 =>
                let st3 : GenState := { st2 with doc := doc2 }
                if env.insertKeyIdFails then
                  rollbackBoth env { st3 with doc := st3.doc.removeMethod method.id }
                    tKeyId pqKeyId .keyIdStorageError
                else
                  (.ok fragStr,
                   { st3 with keyIdStore := st3.keyIdStore ++ [(method, compositeKid)] })

/-- Errors of generate_method_hybrid on whose paths the source attempts no key
rollback: key-storage failures during generation, fragment resolution
failures, DID-URL construction failures, missing method-id fragments, and
method-digest construction failures are all propagated directly. -/
def noRollbackError : Error → Bool
  | .keyStorageError => true
  | .verificationMethodConstructionError (.invalidMethod _) => true
  | .verificationMethodConstructionError .didUrlConstructionError => true
  | .verificationMethodConstructionError .missingIdFragment => true
  | .methodDigestConstructionError => true
  | _ => false

/-- JWS algorithm identifiers relevant to the signer, including the two
composite identifiers and a sample of non-composite ones. -/
inductive JwsAlgorithm
  | edDSA
  | mlDsa44
  | mlDsa65
  | idMldsa44Ed25519Sha512
  | idMldsa65Ed25519Sha512
  | es256
deriving DecidableEq

/-- Modelled from the spec: the textual name of a composite algorithm id. -/
def compositeAlgIdName : CompositeAlgId → Str
  | .idMldsa44Ed25519Sha512 => "Mldsa44+Ed25519+Sha512".toList
  | .idMldsa65Ed25519Sha512 => "Mldsa65+Ed25519+Sha512".toList

/-- Modelled from the spec: parsing a JWS algorithm from its textual name. -/
def parseJwsAlgorithm (s : Str) : Option JwsAlgorithm :=
  if s == "EdDSA".toList then some .edDSA
  else if s == "ML-DSA-44".toList then some .mlDsa44
  else if s == "ML-DSA-65".toList then some .mlDsa65
  else if s == "Mldsa44+Ed25519+Sha512".toList then some .idMldsa44Ed25519Sha512
  else if s == "Mldsa65+Ed25519+Sha512".toList then some .idMldsa65Ed25519Sha512
  else none

/-- The signature options consumed by create_jws (JwsSignatureOptions). -/
structure JwsSignatureOptions where
  kid : Option Str
  typ : Option Str
  cty : Option Str
  url : Option Str
  nonce : Option Str
  b64 : Option Bool
  detachedPayload : Bool
  customHeaderParameters : Option Object
deriving DecidableEq

/-- A JWS protected header. -/
structure JwsHeader where
  alg : Option JwsAlgorithm
  kid : Option Str
  typ : Option Str
  cty : Option Str
  url : Option Str
  nonce : Option Str
  b64 : Option Bool
  crit : Option (List Str)
  custom : Option Object
deriving DecidableEq

/-- JwsHeader::new: all parameters unset. -/
def JwsHeader.new : JwsHeader :=
  { alg := none, kid := none, typ := none, cty := none, url := none,
    nonce := none, b64 := none, crit := none, custom := none }

/-- The header-assembly block of create_jws (hybrid_jws_document_ext.rs,
lines 260 to 302): alg, then custom parameters, kid with the method id as
default, the b64 and crit pair only for an explicit false, typ defaulting to
JWT, then cty, url and nonce. -/
def buildJwsHeader (alg : JwsAlgorithm) (options : JwsSignatureOptions)
    (methodIdStr : Str) : JwsHeader :=
  let h := JwsHeader.new
  let h := { h with alg := some alg }
  let h := match options.customHeaderParameters with
    | some c => { h with custom := some c }
    | none => h
  let h := match options.kid with
    | some k => { h with kid := some k }
    | none => { h with kid := some methodIdStr }
  let h := match options.b64 with
    | some b => if !b then { h with b64 := some b, crit := some ["b64".toList] } else h
    | none => h
  let h := match options.typ with
    | some t => { h with typ := some t }
    | none => { h with typ := some "JWT".toList }
  let h := match options.cty with
    | some c => { h with cty := some c }
    | none => h
  let h := match options.url with
    | some u => { h with url := some u }
    | none => h
  let h := match options.nonce with
    | some n => { h with nonce := some n }
    | none => h
  h

/-- The base64url alphabet (RFC 4648, URL-safe, unpadded). -/
def b64Char (n : Nat) : Char :=
  if n < 26 then Char.ofNat (65 + n)
  else if n < 52 then Char.ofNat (97 + (n - 26))
  else if n < 62 then Char.ofNat (48 + (n - 52))
  else if n = 62 then '-'
  else '_'

/-- Unpadded base64url encoding of a byte string. -/
def base64urlEncode : List Nat → List Char
  | [] => []
  | [b1] => [b64Char (b1 / 4 % 64), b64Char (b1 % 4 * 16)]
  | [b1, b2] =>
    [b64Char (b1 / 4 % 64), b64Char (b1 % 4 * 16 + b2 / 16), b64Char (b2 % 16 * 4)]
  | b1 :: b2 :: b3 :: rest =>
    b64Char (b1 / 4 % 64) :: b64Char (b1 % 4 * 16 + b2 / 16) ::
      b64Char (b2 % 16 * 4 + b3 / 64) :: b64Char (b3 % 64) :: base64urlEncode rest

/-- Modelled from the spec: the compact JWS signing input produced by the
encoder, the bytes of base64url(header), a dot, and base64url(payload). -/
def jwsSigningInput (headerBytes payload : List Nat) : List Nat :=
  (base64urlEncode headerBytes).map Char.toNat ++ [Char.toNat '.'] ++
    (base64urlEncode payload).map Char.toNat

/-- Helper of splitOnce: scan for the separator, accumulating the prefix in
reverse. -/
def splitOnceAux (sep : Char) (acc : Str) : Str → Option (Str × Str)
  | [] => none
  | c :: rest => if c == sep then some (acc.reverse, rest) else splitOnceAux sep (c :: acc) rest

/-- Rust str::split_once: split at the first occurrence of the separator,
returning none when the separator does not occur. -/
def splitOnce (sep : Char) (s : Str) : Option (Str × Str) :=
  splitOnceAux sep [] s

/-- The signing-input construction of create_jws (hybrid_jws_document_ext.rs,
lines 327 to 340): for each composite algorithm a fixed 13-byte DER OID
prefix followed by the SHA-512 digest of the message; every other algorithm
is rejected with InvalidJwsAlgorithm. -/
def hybridSigningInput (alg : JwsAlgorithm) (sha512 : List Nat → List Nat)
    (msg : List Nat) : Except Error (List Nat) :=
  match alg with
  | .idMldsa44Ed25519Sha512 =>
    .ok ([0x06, 0x0B, 0x60, 0x86, 0x48, 0x01, 0x86, 0xFA, 0x6B, 0x50, 0x08, 0x01, 0x03]
      ++ sha512 msg)
  | .idMldsa65Ed25519Sha512 =>
    .ok ([0x06, 0x0B, 0x60, 0x86, 0x48, 0x01, 0x86, 0xFA, 0x6B, 0x50, 0x08, 0x01, 0x0A]
      ++ sha512 msg)
  | _ => .error .invalidJwsAlgorithm

/-- A credential; only the issuer identifier is relevant here. -/
structure Credential where
  issuer : Str
deriving DecidableEq

/-- Environment of the signing operation: the external serializers, the hash
function, the key-id storage lookup (keyed by the method digest, which is a
deterministic function of the method), and the two signing oracles, each
taking a key id, the signing input and the public JWK. -/
structure SignEnv where
  serializeHeader : JwsHeader → List Nat
  sha512 : List Nat → List Nat
  getKeyId : VerificationMethod → Except Unit Str
  digestFails : Bool
  encoderOk : Bool
  sign : Str → List Nat → Jwk → Except Unit (List Nat)
  pqSign : Str → List Nat → Jwk → Except Unit (List Nat)
  serializeJwt : Credential → Option Object → Except Unit Str

/-- The produced JWS, kept in structured form: header bytes, payload bytes,
signature bytes and the detachment flag. -/
structure Jws where
  headerBytes : List Nat
  payloadBytes : List Nat
  signature : List Nat
  detached : Bool
deriving DecidableEq

/-- Shallow embedding of create_jws (hybrid_jws_document_ext.rs, lines 233 to
353): resolve the method by fragment, require composite data, parse the
algorithm, assemble the header, fetch and split the paired key id, build the
signing input, sign classically and post-quantum, and concatenate the two
signatures. -/
def createJws (env : SignEnv) (doc : Document) (fragment : Str) (payload : List Nat)
    (options : JwsSignatureOptions) : Except Error Jws :=
  match doc.resolveMethodFragment fragment with
  | none => .error .methodNotFound
  | some method =>
    match method.data with
    | .publicKeyJwk _ => .error .notCompositePublicKey
    | .compositePublicKey algId tJwk pqJwk =>
      match parseJwsAlgorithm (compositeAlgIdName algId) with
      | none => .error .invalidJwsAlgorithm
      | some alg =>
        let header := buildJwsHeader alg options (didUrlToString method.id)
        if env.digestFails then .error .methodDigestConstructionError
        else
          match env.getKeyId method with
          | .error _ => .error .keyIdStorageError
          | .ok keyId =>
            match splitOnce '~' keyId with
            | none => .error .keyIdStorageError
            | some (tKeyId, pqKeyId) =>
              if !env.encoderOk then .error (.encodingError "encoder failure")
              else
                let headerBytes := env.serializeHeader header
                let msg := jwsSigningInput headerBytes payload
                match hybridSigningInput alg env.sha512 msg with
                | .error e => .error e
                | .ok signingInput =>
                  match env.sign tKeyId signingInput tJwk with
                  | .error _ => .error .keyStorageError
                  | .ok signatureT =>
                    match env.pqSign pqKeyId signingInput pqJwk with
                    | .error _ => .error .keyStorageError
                    | .ok signaturePq =>
                      .ok { headerBytes := headerBytes, payloadBytes := payload,
                            signature := signatureT ++ signaturePq,
                            detached := options.detachedPayload }

/-- A JWT, wrapping the JWS it was produced from. -/
structure Jwt where
  inner : Jws
deriving DecidableEq

/-- Shallow embedding of create_credential_jwt_hybrid
(hybrid_jws_document_ext.rs, lines 355 to 387): reject detached payloads,
reject an explicit b64 = false, serialize the credential to JWT claims with
the optional custom claims, and delegate to create_jws. -/
def createCredentialJwtHybrid (env : SignEnv) (credential : Credential) (doc : Document)
    (fragment : Str) (options : JwsSignatureOptions) (customClaims : Option Object) :
    Except Error Jwt :=
  if options.detachedPayload then
    .error (.encodingError "cannot use detached payload for credential signing")
  else if !(options.b64.getD true) then
    .error (.encodingError "cannot use b64 = false with JWTs")
  else
    match env.serializeJwt credential customClaims with
    | .error _ => .error .claimsSerializationError
    | .ok payload =>
      (createJws env doc fragment (payload.map Char.toNat) options).map (fun jws => ⟨jws⟩)

/-- The signer context attached to validator errors. -/
inductive SignerContext
  | issuer
  | holder
deriving DecidableEq

/-- The validator error type (JwtValidationError), restricted to the variants
produced by the JPT credential validator. -/
inductive JwtValidationError
  | jwpDecodingError
  | methodDataLookupError (message : String) (ctx : SignerContext)
  | documentMismatch (ctx : SignerContext)
  | jwpProofVerificationError
  | credentialStructure
  | signerUrl (ctx : SignerContext)
  | identifierMismatch (ctx : SignerContext)
  | earlyIssuanceDate
  | expired
  | subjectHolderRelationshipError
  | revoked
deriving DecidableEq

/-- The decoded JWP, exposing the kid of its protected header. -/
structure DecodedJwp where
  kid : Option Str
deriving DecidableEq

/-- External JWK representation used by the proof library; the conversion is
modelled by an environment predicate. -/
abbrev JwkExt := Jwk

/-- The value returned by a successful validation. -/
structure DecodedJptCredential where
  credential : Credential
deriving DecidableEq

/-- The status-check policy of the validation options. -/
inductive StatusCheck
  | strict
  | skipUnsupported
  | skipAll
deriving DecidableEq

/-- The subject-holder relationship option: the holder identifier (the
relationship flavor is irrelevant to the control flow). -/
abbrev SubjectHolderRelationship := Str

/-- The proof-verification options (JwsVerificationOptions). -/
structure JwsVerificationOptions where
  methodId : Option DIDUrl
  methodScope : Option MethodScope
deriving DecidableEq

/-- The credential-validation options (JwtCredentialValidationOptions),
with timestamps modelled as naturals. -/
structure JwtCredentialValidationOptions where
  verificationOptions : JwsVerificationOptions
  latestIssuanceDate : Option Nat
  earliestExpiryDate : Option Nat
  subjectHolderRelationship : Option SubjectHolderRelationship
  status : StatusCheck

/-- The fail-fast policy. -/
inductive FailFast
  | firstError
  | allErrors
deriving DecidableEq

/-- Environment of the validator: outcomes of the external JWP codec, DID
parsers, proof verification, claims deserialization, and of the external
validation-unit checks, plus the compile-time revocation feature flag and the
current instant used for defaulted date bounds. -/
structure ValidatorEnv where
  decodeResult : Str → Except Unit DecodedJwp
  parseDIDUrl : Str → Option DIDUrl
  jwkConvertOk : Jwk → Bool
  proofVerifies : DecodedJwp → JwkExt → Bool
  claimsResult : DecodedJwp → Except Unit Credential
  parseDID : Str → Option Str
  checkIssuedOnOrBefore : Credential → Nat → Except JwtValidationError Unit
  checkExpiresOnOrAfter : Credential → Nat → Except JwtValidationError Unit
  checkStructure : Credential → Except JwtValidationError Unit
  checkSubjectHolder : Credential → SubjectHolderRelationship → Except JwtValidationError Unit
  checkStatus : Credential → List Document → StatusCheck → Except JwtValidationError Unit
  revocationEnabled : Bool
  now : Nat

/-- Shallow embedding of verify_decoded_jwp (jpt_credential_validator.rs,
lines 198 to 233): verify the proof against the JWK, then obtain the claims
and deserialize them into a credential (the claims and deserialization steps,
which all surface as CredentialStructure errors, are modelled by one external
outcome). -/
def verifyDecodedJwp (env : ValidatorEnv) (decoded : DecodedJwp) (publicKey : JwkExt) :
    Except JwtValidationError DecodedJptCredential :=
  if !(env.proofVerifies decoded publicKey) then .error .jwpProofVerificationError
  else
    match env.claimsResult decoded with
    | .error _ => .error .credentialStructure
    | .ok credential => .ok { credential := credential }

/-- The method-id resolution block of verify_proof (jpt_credential_validator.rs,
lines 144 to 162): use the optional method id from the options, otherwise
extract the kid from the decoded header and parse it as a DID URL. -/
def resolveMethodId (env : ValidatorEnv) (options : JwsVerificationOptions)
    (decoded : DecodedJwp) : Except JwtValidationError DIDUrl :=
  match options.methodId with
  | some mid => .ok mid
  | none =>
    match decoded.kid with
    | none =>
      .error (.methodDataLookupError "could not extract kid from protected header" .issuer)
    | some kid =>
      match env.parseDIDUrl kid with
      | none =>
        .error (.methodDataLookupError "could not parse kid as a DID Url" .issuer)
      | some u => .ok u

/-- The public-key extraction block of verify_proof (jpt_credential_validator.rs,
lines 172 to 180): resolve the method by id and scope, take its JWK data, and
convert it to the external JWK type. -/
def lookupPublicKey (env : ValidatorEnv) (issuer : Document) (methodId : DIDUrl)
    (scope : Option MethodScope) : Option JwkExt :=
  ((issuer.resolveMethodUrl methodId scope).bind (fun m => m.data.publicKeyJwkOpt)).bind
    (fun k => if env.jwkConvertOk k then some k else none)

/-- Shallow embedding of verify_proof (jpt_credential_validator.rs, lines 130
to 194): decode, resolve the method id, locate the trusted issuer document by
the DID of the method id, extract the public key, verify the decoded JWP, and
finally compare the credential issuer DID against the DID component of the
method id. -/
def verifyProof (env : ValidatorEnv) (credentialJpt : Str) (trustedIssuers : List Document)
    (options : JwsVerificationOptions) : Except JwtValidationError DecodedJptCredential :=
  match env.decodeResult credentialJpt with
  | .error _ => .error .jwpDecodingError
  | .ok decoded =>
    match resolveMethodId env options decoded with
    | .error e => .error e
    | .ok methodId =>
      match trustedIssuers.find? (fun d => d.did == methodId.did) with
      | none => .error (.documentMismatch .issuer)
      | some issuer =>
        match lookupPublicKey env issuer methodId options.methodScope with
        | none =>
          .error (.methodDataLookupError
            "could not extract JWK from a method identified by kid" .issuer)
        | some publicKey =>
          match verifyDecodedJwp env decoded publicKey with
          | .error e => .error e
          | .ok credentialToken =>
            match env.parseDID credentialToken.credential.issuer with
            | none => .error (.signerUrl .issuer)
            | some issuerId =>
              if issuerId ≠ methodId.did then .error (.identifierMismatch .issuer)
              else .ok credentialToken

/-- The error of a unit outcome, if any. -/
def errOf {E A : Type} : Except E A → Option E
  | .error e => some e
  | .ok _ => none

/-- The validation units of validate_extended in their chained order
(jpt_credential_validator.rs, lines 76 to 112): issuance date, expiry date,
structure, subject-holder relationship (trivially passing when the option is
unset), and, when the revocation feature is enabled, the status check. -/
def validationUnits (env : ValidatorEnv) (options : JwtCredentialValidationOptions)
    (issuers : List Document) (credential : Credential) :
    List (Except JwtValidationError Unit) :=
  [env.checkIssuedOnOrBefore credential (options.latestIssuanceDate.getD env.now),
   env.checkExpiresOnOrAfter credential (options.earliestExpiryDate.getD env.now),
   env.checkStructure credential,
   (match options.subjectHolderRelationship with
    | some shr => env.checkSubjectHolder credential shr
    | none => .ok ())] ++
  (if env.revocationEnabled then [env.checkStatus credential issuers options.status] else [])

/-- Shallow embedding of validate_extended (jpt_credential_validator.rs, lines
53 to 125): verify the proof, aborting with a single-error compound error on
failure regardless of the fail-fast flag; then collect the unit errors, one
under FirstError, all of them under AllErrors, and fail when any were
collected. -/
def validateExtended (env : ValidatorEnv) (credentialJpt : Str) (issuers : List Document)
    (options : JwtCredentialValidationOptions) (failFast : FailFast) :
    Except (List JwtValidationError) DecodedJptCredential :=
  match verifyProof env credentialJpt issuers options.verificationOptions with
  | .error e => .error [e]
  | .ok credentialToken =>
    let validationErrors :=
      match failFast with
      | .firstError =>
        ((validationUnits env options issuers credentialToken.credential).filterMap errOf).take 1
      | .allErrors =>
        (validationUnits env options issuers credentialToken.credential).filterMap errOf
    if validationErrors.isEmpty then .ok credentialToken
    else .error validationErrors

/-- The JWS algorithm that the name of each composite algorithm id parses to. -/
def jwsAlgOf : CompositeAlgId → JwsAlgorithm
  | .idMldsa44Ed25519Sha512 => .idMldsa44Ed25519Sha512
  | .idMldsa65Ed25519Sha512 => .idMldsa65Ed25519Sha512

/-- The 13-byte DER OID domain separators of the two composite algorithms. -/
def derOid : CompositeAlgId → List Nat
  | .idMldsa44Ed25519Sha512 =>
    [0x06, 0x0B, 0x60, 0x86, 0x48, 0x01, 0x86, 0xFA, 0x6B, 0x50, 0x08, 0x01, 0x03]
  | .idMldsa65Ed25519Sha512 =>
    [0x06, 0x0B, 0x60, 0x86, 0x48, 0x01, 0x86, 0xFA, 0x6B, 0x50, 0x08, 0x01, 0x0A]

/-- Default signature options: everything unset, payload attached. -/
def optsDefault : JwsSignatureOptions :=
  { kid := none, typ := none, cty := none, url := none, nonce := none,
    b64 := none, detachedPayload := false, customHeaderParameters := none }

/-- An empty example document. -/
def docEmpty : Document := { did := "did:example:123".toList, methods := [] }

/-- An empty example generation state. -/
def stEmpty : GenState := { doc := docEmpty, keyStore := [], keyIdStore := [] }

/-- A generation environment whose key stores succeed, whose generated JWKs
carry no kid, and in which every rollback deletion would succeed. -/
def genEnvNoKid : GenEnv :=
  { tGenResult := .ok ("t-key-1".toList, { kid := none }),
    pqGenResult := .ok ("pq-key-1".toList, { kid := none }),
    buildFails := false, digestFails := false, insertKeyIdFails := false,
    deleteFails := fun _ => false }

/-- The same generation environment with a failing key-id-storage insertion. -/
def genEnvInsertFail : GenEnv := { genEnvNoKid with insertKeyIdFails := true }

/-- An example composite verification method. -/
def methodSign : VerificationMethod :=
  { id := { did := "did:example:123".toList, fragment := some "k1".toList },
    controller := "did:example:123".toList,
    typ := "CompositeSignaturePublicKey".toList,
    data := .compositePublicKey .idMldsa44Ed25519Sha512 { kid := none } { kid := none } }

/-- An example document holding the composite method. -/
def docSign : Document :=
  { did := "did:example:123".toList, methods := [(methodSign, .assertionMethod)] }

/-- A signing environment in which every external call succeeds. -/
def signEnvOk : SignEnv :=
  { serializeHeader := fun _ => [1, 2, 3],
    sha512 := fun _ => List.replicate 64 0,
    getKeyId := fun _ => .ok "ta~pb".toList,
    digestFails := false, encoderOk := true,
    sign := fun _ _ _ => .ok [7, 8],
    pqSign := fun _ _ _ => .ok [9],
    serializeJwt := fun _ _ => .ok "claims".toList }

/-- The same signing environment, but the stored key id lacks the separator. -/
def signEnvNoTilde : SignEnv :=
  { signEnvOk with getKeyId := fun _ => .ok "plainkey".toList }

/-- The JWS produced by createJws under signEnvOk on payload [104, 105]. -/
def jwsC3 : Jws :=
  { headerBytes := [1, 2, 3], payloadBytes := [104, 105],
    signature := [7, 8, 9], detached := false }

/-- An issuer verification method whose controller differs from the DID of its
own id. -/
def methodIss : VerificationMethod :=
  { id := { did := "did:example:iss".toList, fragment := some "k1".toList },
    controller := "did:example:other".toList,
    typ := "JsonWebKey".toList,
    data := .publicKeyJwk { kid := none } }

/-- The issuer document holding that method. -/
def docIss : Document :=
  { did := "did:example:iss".toList, methods := [(methodIss, .verificationMethod)] }

/-- A validator environment in which decoding, parsing, proof verification and
claims deserialization all succeed and every validation unit passes. -/
def valEnvOk : ValidatorEnv :=
  { decodeResult := fun _ => .ok { kid := some "did:example:iss#k1".toList },
    parseDIDUrl := fun s =>
      if s == "did:example:iss#k1".toList then
        some { did := "did:example:iss".toList, fragment := some "k1".toList }
      else none,
    jwkConvertOk := fun _ => true,
    proofVerifies := fun _ _ => true,
    claimsResult := fun _ => .ok { issuer := "did:example:iss".toList },
    parseDID := fun s => some s,
    checkIssuedOnOrBefore := fun _ _ => .ok (),
    checkExpiresOnOrAfter := fun _ _ => .ok (),
    checkStructure := fun _ => .ok (),
    checkSubjectHolder := fun _ _ => .ok (),
    checkStatus := fun _ _ _ => .ok (),
    revocationEnabled := false,
    now := 0 }

/-- The same validator environment with a failing issuance-date unit and a
failing structure unit. -/
def valEnvUnitsFail : ValidatorEnv :=
  { valEnvOk with
    checkIssuedOnOrBefore := fun _ _ => .error .earlyIssuanceDate,
    checkStructure := fun _ => .error .credentialStructure }

/-- The same validator environment with a failing JWP decode step. -/
def valEnvDecodeFails : ValidatorEnv :=
  { valEnvOk with decodeResult := fun _ => .error () }

/-- Default proof-verification options. -/
def optsVer : JwsVerificationOptions := { methodId := none, methodScope := none }

/-- Default credential-validation options. -/
def optsVal : JwtCredentialValidationOptions :=
  { verificationOptions := optsVer, latestIssuanceDate := none,
    earliestExpiryDate := none, subjectHolderRelationship := none, status := .strict }

/-- The signing-input characterization of a successful create_jws call: the
input passed to both signing oracles is the 13-byte DER OID of the method's
composite algorithm followed by the SHA-512 digest of the bytes
base64url(header), a dot, base64url(payload); the output signature is the
concatenation of the two produced signatures; and every non-composite
algorithm is rejected with InvalidJwsAlgorithm. -/
def signingInputSpec (env : SignEnv) (doc : Document) (fragment : Str)
    (payload : List Nat) (options : JwsSignatureOptions) (jws : Jws) : Prop :=
  (∃ method algId tJwk pqJwk tKeyId pqKeyId sigT sigPq,
    doc.resolveMethodFragment fragment = some method ∧
    method.data = .compositePublicKey algId tJwk pqJwk ∧
    ∀ msgB, msgB = jwsSigningInput (env.serializeHeader
        (buildJwsHeader (jwsAlgOf algId) options (didUrlToString method.id))) payload →
      env.sign tKeyId (derOid algId ++ env.sha512 msgB) tJwk = .ok sigT ∧
      env.pqSign pqKeyId (derOid algId ++ env.sha512 msgB) pqJwk = .ok sigPq ∧
      jws.signature = sigT ++ sigPq ∧
      (derOid algId).length = 13 ∧
      (algId = .idMldsa44Ed25519Sha512 → (derOid algId).getLast? = some 0x03) ∧
      (algId = .idMldsa65Ed25519Sha512 → (derOid algId).getLast? = some 0x0A) ∧
      (derOid algId ++ env.sha512 msgB).length = 77 ∧
      (derOid algId ++ env.sha512 msgB).take 13 = derOid algId ∧
      (derOid algId ++ env.sha512 msgB).drop 13 = env.sha512 msgB) ∧
  (∀ alg, alg ≠ JwsAlgorithm.idMldsa44Ed25519Sha512 →
    alg ≠ JwsAlgorithm.idMldsa65Ed25519Sha512 →
    ∀ sha msgB, hybridSigningInput alg sha msgB = .error .invalidJwsAlgorithm)

/-- Scanning for a separator that does not occur yields nothing. -/
theorem splitOnceAux_not_mem (sep : Char) (s : Str) (hsep : sep ∉ s) (acc : Str) :
    splitOnceAux sep acc s = none := by
  induction s generalizing acc with
  | nil => rfl
  | cons c rest ih =>
    have hc : ¬(c == sep) = true := by
      simp only [beq_iff_eq]
      intro hce
      exact hsep (hce ▸ List.mem_cons_self c rest)
    simp only [splitOnceAux, Bool.not_eq_true] at hc
    simp only [splitOnceAux, hc]
    exact ih (fun hm => hsep (List.mem_cons_of_mem c hm)) (c :: acc)

/-- splitOnce yields none exactly on separator-free strings. -/
theorem splitOnce_not_mem (sep : Char) (s : Str) (hsep : sep ∉ s) :
    splitOnce sep s = none :=
  splitOnceAux_not_mem sep s hsep []

/-- Scanning splits at the first occurrence of the separator. -/
theorem splitOnceAux_append (sep : Char) (a b : Str) (ha : sep ∉ a) (acc : Str) :
    splitOnceAux sep acc (a ++ sep :: b) = some (acc.reverse ++ a, b) := by
  induction a generalizing acc with
  | nil => simp [splitOnceAux]
  | cons c rest ih =>
    have hc : (c == sep) = false := by
      simp only [beq_eq_false_iff_ne, ne_eq]
      intro hce
      exact ha (hce ▸ List.mem_cons_self c rest)
    have step : splitOnceAux sep acc (c :: (rest ++ sep :: b)) =
        splitOnceAux sep (c :: acc) (rest ++ sep :: b) := by
      simp [splitOnceAux, hc]
    rw [List.cons_append, step, ih (fun hm => ha (List.mem_cons_of_mem c hm)) (c :: acc)]
    simp

/-- splitOnce splits at the first occurrence of the separator: the left half is
the separator-free prefix, the right half all that follows. -/
theorem splitOnce_append (sep : Char) (a b : Str) (ha : sep ∉ a) :
    splitOnce sep (a ++ sep :: b) = some (a, b) := by
  rw [splitOnce, splitOnceAux_append sep a b ha []]
  rfl

/-- The name of each composite algorithm id parses back to the corresponding
composite JWS algorithm. -/
theorem parseJwsAlgorithm_composite (algId : CompositeAlgId) :
    parseJwsAlgorithm (compositeAlgIdName algId) = some (jwsAlgOf algId) := by
  cases algId <;> rfl

/-- On the two composite algorithms the signing-input construction prepends
the fixed DER OID. -/
theorem hybridSigningInput_composite (algId : CompositeAlgId) (sha : List Nat → List Nat)
    (msg : List Nat) :
    hybridSigningInput (jwsAlgOf algId) sha msg = .ok (derOid algId ++ sha msg) := by
  cases algId <;> rfl

/-- C8: in the header assembly of create_jws, an unset kid option defaults the
header kid to the method id rendered as a string, an unset typ option defaults
the header typ to the literal JWT, an explicit b64 = false sets header b64 to
false and crit to the singleton b64, and any other b64 option leaves both b64
and crit unset. -/
theorem create_jws_header_defaults (alg : JwsAlgorithm) (options : JwsSignatureOptions)
    (methodIdStr : Str) :
    (options.kid = none → (buildJwsHeader alg options methodIdStr).kid = some methodIdStr) ∧
    (options.typ = none → (buildJwsHeader alg options methodIdStr).typ = some "JWT".toList) ∧
    (options.b64 = some false →
      (buildJwsHeader alg options methodIdStr).b64 = some false ∧
      (buildJwsHeader alg options methodIdStr).crit = some ["b64".toList]) ∧
    ((options.b64 = some true ∨ options.b64 = none) →
      (buildJwsHeader alg options methodIdStr).b64 = none ∧
      (buildJwsHeader alg options methodIdStr).crit = none) := by
  obtain ⟨kid, typ, cty, url, nonce, b64, det, custom⟩ := options
  cases kid <;> cases typ <;> cases cty <;> cases url <;> cases nonce <;> cases custom <;>
    rcases b64 with _ | (_ | _) <;>
    simp [buildJwsHeader, JwsHeader.new]

/-- Witness for C8 at concrete inputs. -/
theorem create_jws_header_defaults_witness :
    (buildJwsHeader .edDSA optsDefault "did:example:123#k1".toList).kid =
      some "did:example:123#k1".toList ∧
    (buildJwsHeader .edDSA optsDefault "did:example:123#k1".toList).typ = some "JWT".toList ∧
    (buildJwsHeader .edDSA optsDefault "did:example:123#k1".toList).b64 = none ∧
    (buildJwsHeader .edDSA optsDefault "did:example:123#k1".toList).crit = none := by
  obtain ⟨h1, h2, _, h4⟩ :=
    create_jws_header_defaults .edDSA optsDefault "did:example:123#k1".toList
  exact ⟨h1 rfl, h2 rfl, (h4 (Or.inr rfl)).1, (h4 (Or.inr rfl)).2⟩

/-- C7: create_credential_jwt_hybrid rejects a detached payload with an
encoding error, rejects an explicit b64 = false with an encoding error, and
otherwise serializes the credential with the optional custom claims and
delegates to create_jws. -/
theorem create_credential_jwt_hybrid_guards (env : SignEnv) (credential : Credential)
    (doc : Document) (fragment : Str) (options : JwsSignatureOptions)
    (customClaims : Option Object) :
    (options.detachedPayload = true →
      createCredentialJwtHybrid env credential doc fragment options customClaims =
        .error (.encodingError "cannot use detached payload for credential signing")) ∧
    (options.b64 = some false →
      ∃ msg, createCredentialJwtHybrid env credential doc fragment options customClaims =
        .error (.encodingError msg)) ∧
    (options.detachedPayload = false → options.b64 ≠ some false →
      createCredentialJwtHybrid env credential doc fragment options customClaims =
        match env.serializeJwt credential customClaims with
        | .error _ => .error .claimsSerializationError
        | .ok payload =>
          (createJws env doc fragment (payload.map Char.toNat) options).map
            (fun jws => ⟨jws⟩)) := by
  refine ⟨fun hd => by simp [createCredentialJwtHybrid, hd], ?_, ?_⟩
  · intro hb
    by_cases hd : options.detachedPayload = true
    · exact ⟨"cannot use detached payload for credential signing",
        by simp [createCredentialJwtHybrid, hd]⟩
    · refine ⟨"cannot use b64 = false with JWTs", ?_⟩
      simp only [Bool.not_eq_true] at hd
      simp [createCredentialJwtHybrid, hd, hb]
  · intro hd hb
    have hb' : options.b64.getD true = true := by
      rcases h : options.b64 with _ | b
      · rfl
      · cases b
        · exact absurd h hb
        · rfl
    simp [createCredentialJwtHybrid, hd, hb']

/-- Witness for C7 at concrete inputs. -/
theorem create_credential_jwt_hybrid_guards_witness :
    (createCredentialJwtHybrid signEnvOk { issuer := "did:example:iss".toList } docSign
        "k1".toList { optsDefault with detachedPayload := true } none =
      .error (.encodingError "cannot use detached payload for credential signing")) ∧
    (∃ msg, createCredentialJwtHybrid signEnvOk { issuer := "did:example:iss".toList } docSign
        "k1".toList { optsDefault with b64 := some false } none =
      .error (.encodingError msg)) := by
  refine ⟨?_, ?_⟩
  · exact (create_credential_jwt_hybrid_guards signEnvOk { issuer := "did:example:iss".toList }
      docSign "k1".toList { optsDefault with detachedPayload := true } none).1 rfl
  · exact (create_credential_jwt_hybrid_guards signEnvOk { issuer := "did:example:iss".toList }
      docSign "k1".toList { optsDefault with b64 := some false } none).2.1 rfl

/-- C6: any error of the proof-verification phase aborts validate_extended,
for either fail-fast policy, with a compound error holding exactly that one
error. -/
theorem validate_extended_proof_error_aborts (env : ValidatorEnv) (credentialJpt : Str)
    (issuers : List Document) (options : JwtCredentialValidationOptions) (failFast : FailFast)
    (e : JwtValidationError)
    (h : verifyProof env credentialJpt issuers options.verificationOptions = .error e) :
    validateExtended env credentialJpt issuers options failFast = .error [e] := by
  simp [validateExtended, h]

/-- Witness for C6 at concrete inputs. -/
theorem validate_extended_proof_error_aborts_witness :
    validateExtended valEnvDecodeFails "jpt".toList [docIss] optsVal .allErrors =
      .error [.jwpDecodingError] :=
  validate_extended_proof_error_aborts valEnvDecodeFails "jpt".toList [docIss] optsVal
    .allErrors .jwpDecodingError (by rfl)

/-- C4: after a successful proof phase the validation units run in the fixed
order issuance date, expiry date, structure, subject-holder relationship and,
when the revocation feature is enabled, status; under FirstError exactly the
first failing unit's error is reported, and under AllErrors exactly the errors
of all failing units are reported. -/
theorem validate_extended_unit_order_failfast (env : ValidatorEnv) (credentialJpt : Str)
    (issuers : List Document) (options : JwtCredentialValidationOptions)
    (tok : DecodedJptCredential)
    (hp : verifyProof env credentialJpt issuers options.verificationOptions = .ok tok) :
    (∀ e rest,
      (validationUnits env options issuers tok.credential).filterMap errOf = e :: rest →
      validateExtended env credentialJpt issuers options .firstError = .error [e]) ∧
    ((validationUnits env options issuers tok.credential).filterMap errOf = [] →
      validateExtended env credentialJpt issuers options .firstError = .ok tok ∧
      validateExtended env credentialJpt issuers options .allErrors = .ok tok) ∧
    (∀ errs,
      (validationUnits env options issuers tok.credential).filterMap errOf = errs →
      errs ≠ [] →
      validateExtended env credentialJpt issuers options .allErrors = .error errs) := by
  refine ⟨?_, ?_, ?_⟩
  · intro e rest hu
    simp [validateExtended, hp, hu]
  · intro hu
    constructor <;> simp [validateExtended, hp, hu]
  · intro errs hu hne
    rcases errs with _ | ⟨e, rest⟩
    · exact absurd rfl hne
    · simp [validateExtended, hp, hu]

/-- Witness for C4 at concrete inputs: the issuance and structure units fail,
FirstError reports only the issuance failure, AllErrors reports both, in unit
order. -/
theorem validate_extended_unit_order_failfast_witness :
    validateExtended valEnvUnitsFail "jpt".toList [docIss] optsVal .firstError =
      .error [.earlyIssuanceDate] ∧
    validateExtended valEnvUnitsFail "jpt".toList [docIss] optsVal .allErrors =
      .error [.earlyIssuanceDate, .credentialStructure] := by
  obtain ⟨h1, _, h3⟩ := validate_extended_unit_order_failfast valEnvUnitsFail "jpt".toList
    [docIss] optsVal ⟨⟨"did:example:iss".toList⟩⟩ (by rfl)
  exact ⟨h1 .earlyIssuanceDate [.credentialStructure] (by rfl),
    h3 [.earlyIssuanceDate, .credentialStructure] (by rfl) (by simp)⟩

/-- Inversion of a successful create_jws call: every intermediate step
succeeded and the output is assembled from the step results. -/
theorem createJws_ok_inv (env : SignEnv) (doc : Document) (fragment : Str)
    (payload : List Nat) (options : JwsSignatureOptions) (jws : Jws)
    (h : createJws env doc fragment payload options = .ok jws) :
    ∃ method algId tJwk pqJwk keyId tKeyId pqKeyId si sigT sigPq,
      doc.resolveMethodFragment fragment = some method ∧
      method.data = .compositePublicKey algId tJwk pqJwk ∧
      env.getKeyId method = .ok keyId ∧
      splitOnce '~' keyId = some (tKeyId, pqKeyId) ∧
      hybridSigningInput (jwsAlgOf algId) env.sha512
        (jwsSigningInput (env.serializeHeader
          (buildJwsHeader (jwsAlgOf algId) options (didUrlToString method.id))) payload) =
        .ok si ∧
      env.sign tKeyId si tJwk = .ok sigT ∧
      env.pqSign pqKeyId si pqJwk = .ok sigPq ∧
      jws = { headerBytes := env.serializeHeader
                (buildJwsHeader (jwsAlgOf algId) options (didUrlToString method.id)),
              payloadBytes := payload, signature := sigT ++ sigPq,
              detached := options.detachedPayload } := by
  unfold createJws at h
  split at h
  · simp at h
  next method hres =>
    split at h
    next jwk hdata => simp at h
    next algId tJwk pqJwk hdata =>
      split at h
      · simp at h
      next alg halg =>
        obtain rfl : alg = jwsAlgOf algId := by
          rw [parseJwsAlgorithm_composite] at halg
          exact (Option.some.inj halg).symm
        split at h
        · simp at h
        next hdig =>
          split at h
          next hkeyErr => simp at h
          next keyId hkid =>
            split at h
            next hsplitNone => simp at h
            next tKeyId pqKeyId hsplit =>
              split at h
              · simp at h
              next henc =>
                dsimp only at h
                split at h
                next e hsiErr => simp at h
                next si hsi =>
                  split at h
                  next hsErr => simp at h
                  next sigT hs =>
                    split at h
                    next hpErr => simp at h
                    next sigPq hp =>
                      simp only [Except.ok.injEq] at h
                      exact ⟨method, algId, tJwk, pqJwk, keyId, tKeyId, pqKeyId, si, sigT,
                        sigPq, hres, hdata, hkid, hsplit, hsi, hs, hp, h.symm⟩

/-- C3: in every successful create_jws call, the input passed to both signing
oracles is exactly the 13-byte DER OID prefix of the method's composite
algorithm (last byte 0x03 for Mldsa44, 0x0A for Mldsa65) followed by the
64-byte SHA-512 digest of the bytes base64url(header), dot, base64url(payload);
and every other algorithm is rejected with InvalidJwsAlgorithm. -/
theorem create_jws_signing_input_oid_sha512 (env : SignEnv) (doc : Document) (fragment : Str)
    (payload : List Nat) (options : JwsSignatureOptions) (jws : Jws)
    (hsha : ∀ x, (env.sha512 x).length = 64)
    (h : createJws env doc fragment payload options = .ok jws) :
    signingInputSpec env doc fragment payload options jws := by
  obtain ⟨method, algId, tJwk, pqJwk, keyId, tKeyId, pqKeyId, si, sigT, sigPq,
    hres, hdata, hkid, hsplit, hsi, hs, hp, hjws⟩ :=
    createJws_ok_inv env doc fragment payload options jws h
  have h13 : (derOid algId).length = 13 := by cases algId <;> rfl
  constructor
  · refine ⟨method, algId, tJwk, pqJwk, tKeyId, pqKeyId, sigT, sigPq, hres, hdata, ?_⟩
    intro msgB hmsg
    subst hmsg
    rw [hybridSigningInput_composite] at hsi
    obtain rfl : derOid algId ++ env.sha512 _ = si := Except.ok.inj hsi
    refine ⟨hs, hp, by simp [hjws], h13, ?_, ?_, ?_, ?_, ?_⟩
    · intro h44; subst h44; rfl
    · intro h65; subst h65; rfl
    · simp [List.length_append, h13, hsha]
    · rw [← h13]; exact List.take_left _ _
    · rw [← h13]; exact List.drop_left _ _
  · intro alg h44 h65 sha msgB
    cases alg
    · rfl
    · rfl
    · rfl
    · exact absurd rfl h44
    · exact absurd rfl h65
    · rfl

/-- Witness for C3 at concrete inputs. -/
theorem create_jws_signing_input_oid_sha512_witness :
    signingInputSpec signEnvOk docSign "k1".toList [104, 105] optsDefault jwsC3 :=
  create_jws_signing_input_oid_sha512 signEnvOk docSign "k1".toList [104, 105] optsDefault
    jwsC3 (fun x => by simp [signEnvOk]) (by rfl)

/-- C5: when the stored paired key id is a separator-free left half, a tilde
and a right half, create_jws signs classically under the left half, signs
post-quantum under the right half, and outputs the byte concatenation of the
classical signature followed by the post-quantum signature, with no length
prefix. -/
theorem create_jws_split_sign_concat (env : SignEnv) (doc : Document) (fragment : Str)
    (payload : List Nat) (options : JwsSignatureOptions) (method : VerificationMethod)
    (algId : CompositeAlgId) (tJwk pqJwk : Jwk) (alg : JwsAlgorithm)
    (tHalf pqHalf : Str) (si sigT sigPq : List Nat)
    (hres : doc.resolveMethodFragment fragment = some method)
    (hdata : method.data = .compositePublicKey algId tJwk pqJwk)
    (halg : parseJwsAlgorithm (compositeAlgIdName algId) = some alg)
    (hdig : env.digestFails = false)
    (hkid : env.getKeyId method = .ok (tHalf ++ '~' :: pqHalf))
    (htf : '~' ∉ tHalf)
    (henc : env.encoderOk = true)
    (hsi : hybridSigningInput alg env.sha512
      (jwsSigningInput (env.serializeHeader
        (buildJwsHeader alg options (didUrlToString method.id))) payload) = .ok si)
    (hs : env.sign tHalf si tJwk = .ok sigT)
    (hp : env.pqSign pqHalf si pqJwk = .ok sigPq) :
    createJws env doc fragment payload options =
      .ok { headerBytes := env.serializeHeader
              (buildJwsHeader alg options (didUrlToString method.id)),
            payloadBytes := payload, signature := sigT ++ sigPq,
            detached := options.detachedPayload } := by
  simp [createJws, hres, hdata, halg, hdig, hkid, splitOnce_append '~' tHalf pqHalf htf,
    henc, hsi, hs, hp]

/-- Witness for C5 at concrete inputs. -/
theorem create_jws_split_sign_concat_witness :
    createJws signEnvOk docSign "k1".toList [104, 105] optsDefault = .ok jwsC3 :=
  (create_jws_split_sign_concat signEnvOk docSign "k1".toList [104, 105] optsDefault
    methodSign .idMldsa44Ed25519Sha512 { kid := none } { kid := none }
    .idMldsa44Ed25519Sha512 "ta".toList "pb".toList
    (derOid .idMldsa44Ed25519Sha512 ++ List.replicate 64 0) [7, 8] [9]
    (by rfl) (by rfl) (by rfl) (by rfl) (by rfl) (by decide) (by rfl) (by rfl) (by rfl)
    (by rfl)).trans (by rfl)

/-- C9: when the key id stored for the method digest contains no tilde,
create_jws fails with a KeyIdStorageError (no signature is produced and
nothing panics); and a key id with one or more tildes is split at the first
occurrence. -/
theorem create_jws_key_id_split_once (env : SignEnv) (doc : Document) (fragment : Str)
    (payload : List Nat) (options : JwsSignatureOptions) (method : VerificationMethod)
    (algId : CompositeAlgId) (tJwk pqJwk : Jwk) (keyId : Str)
    (hres : doc.resolveMethodFragment fragment = some method)
    (hdata : method.data = .compositePublicKey algId tJwk pqJwk)
    (hdig : env.digestFails = false)
    (hkid : env.getKeyId method = .ok keyId) :
    ('~' ∉ keyId →
      createJws env doc fragment payload options = .error .keyIdStorageError) ∧
    (∀ a b, '~' ∉ a → keyId = a ++ '~' :: b →
      splitOnce '~' keyId = some (a, b)) := by
  constructor
  · intro hno
    simp [createJws, hres, hdata, parseJwsAlgorithm_composite, hdig, hkid,
      splitOnce_not_mem '~' keyId hno]
  · intro a b ha hk
    subst hk
    exact splitOnce_append '~' a b ha

/-- Witness for C9 at concrete inputs: a separator-free stored key id makes
create_jws fail with KeyIdStorageError, and a key id of shape left, tilde,
right splits into left and right. -/
theorem create_jws_key_id_split_once_witness :
    createJws signEnvNoTilde docSign "k1".toList [104, 105] optsDefault =
      .error .keyIdStorageError ∧
    splitOnce '~' ("ta".toList ++ '~' :: "pb".toList) = some ("ta".toList, "pb".toList) := by
  refine ⟨?_, ?_⟩
  · exact (create_jws_key_id_split_once signEnvNoTilde docSign "k1".toList [104, 105]
      optsDefault methodSign .idMldsa44Ed25519Sha512 { kid := none } { kid := none }
      "plainkey".toList (by rfl) (by rfl) (by rfl) (by rfl)).1 (by decide)
  · exact (create_jws_key_id_split_once signEnvOk docSign "k1".toList [104, 105]
      optsDefault methodSign .idMldsa44Ed25519Sha512 { kid := none } { kid := none }
      ("ta".toList ++ '~' :: "pb".toList) (by rfl) (by rfl) (by rfl) (by rfl)).2
      "ta".toList "pb".toList (by decide) rfl

/-- C2 counterexample: a successful verify_proof run on an issuer document
whose resolved method has a controller different from both the method-id DID
and the credential issuer. The call succeeds although the credential issuer
differs from the resolved method's controller, so the issuer check compares
against the DID of the method id, not against the method's controller. -/
theorem verify_proof_controller_counterexample :
    verifyProof valEnvOk "jpt".toList [docIss] optsVer =
      .ok { credential := { issuer := "did:example:iss".toList } } ∧
    docIss.resolveMethodUrl
      { did := "did:example:iss".toList, fragment := some "k1".toList } none =
      some methodIss ∧
    methodIss.controller = "did:example:other".toList ∧
    "did:example:iss".toList ≠ "did:example:other".toList :=
  ⟨by rfl, by rfl, by rfl, by decide⟩

/-- C2 (amended): after all earlier proof-phase steps succeed, verify_proof
returns IdentifierMismatch with signer context Issuer exactly when the
credential's issuer DID differs from the DID component of the resolved
method id (equivalently, the id of the located issuer document); the method's
controller is never consulted. -/
theorem verify_proof_issuer_id_check (env : ValidatorEnv) (credentialJpt : Str)
    (issuers : List Document) (options : JwsVerificationOptions)
    (decoded : DecodedJwp) (methodId : DIDUrl) (issuer : Document) (publicKey : JwkExt)
    (tok : DecodedJptCredential) (issuerId : Str)
    (h1 : env.decodeResult credentialJpt = .ok decoded)
    (h2 : resolveMethodId env options decoded = .ok methodId)
    (h3 : issuers.find? (fun d => d.did == methodId.did) = some issuer)
    (h4 : lookupPublicKey env issuer methodId options.methodScope = some publicKey)
    (h5 : verifyDecodedJwp env decoded publicKey = .ok tok)
    (h6 : env.parseDID tok.credential.issuer = some issuerId) :
    (issuerId = methodId.did →
      verifyProof env credentialJpt issuers options = .ok tok) ∧
    (issuerId ≠ methodId.did →
      verifyProof env credentialJpt issuers options =
        .error (.identifierMismatch .issuer)) := by
  constructor
  · intro he
    simp [verifyProof, h1, h2, h3, h4, h5, h6, he]
  · intro hne
    simp [verifyProof, h1, h2, h3, h4, h5, h6, hne]

/-- Witness for C2 at concrete inputs. -/
theorem verify_proof_issuer_id_check_witness :
    verifyProof valEnvOk "jpt".toList [docIss] optsVer =
      .ok { credential := { issuer := "did:example:iss".toList } } :=
  (verify_proof_issuer_id_check valEnvOk "jpt".toList [docIss] optsVer
    { kid := some "did:example:iss#k1".toList }
    { did := "did:example:iss".toList, fragment := some "k1".toList }
    docIss { kid := none } { credential := { issuer := "did:example:iss".toList } }
    "did:example:iss".toList
    (by rfl) (by rfl) (by rfl) (by rfl) (by rfl) (by rfl)).1 (by rfl)

/-- Characterization of the rollback sequence on an error result: the
document and key-id store are untouched, the key store only shrinks, and a
generated key can survive only when the error reports an undo failure. -/
theorem rollbackBoth_spec (env : GenEnv) (st : GenState) (tKeyId pqKeyId : Str)
    (source e : Error) (st' : GenState)
    (h : rollbackBoth env st tKeyId pqKeyId source = (.error e, st')) :
    st'.doc = st.doc ∧ st'.keyIdStore = st.keyIdStore ∧
    ∀ k, k ∈ st'.keyStore →
      k ∈ st.keyStore ∧
      ((k = tKeyId ∨ k = pqKeyId) → ∃ src, e = .undoOperationFailed src) := by
  by_cases h1 : env.deleteFails tKeyId = true
  · by_cases h2 : env.deleteFails pqKeyId = true
    · simp [rollbackBoth, tryUndoKeyGeneration, h1, h2] at h
      obtain ⟨he, hst⟩ := h
      subst he
      subst hst
      exact ⟨rfl, rfl, fun k hk => ⟨hk, fun _ => ⟨.undoOperationFailed source, rfl⟩⟩⟩
    · simp [rollbackBoth, tryUndoKeyGeneration, h1, h2] at h
      obtain ⟨he, hst⟩ := h
      subst he
      subst hst
      exact ⟨rfl, rfl, fun k hk => ⟨(List.mem_filter.mp hk).1, fun _ => ⟨source, rfl⟩⟩⟩
  · by_cases h2 : env.deleteFails pqKeyId = true
    · simp [rollbackBoth, tryUndoKeyGeneration, h1, h2] at h
      obtain ⟨he, hst⟩ := h
      subst he
      subst hst
      exact ⟨rfl, rfl, fun k hk => ⟨(List.mem_filter.mp hk).1, fun _ => ⟨source, rfl⟩⟩⟩
    · simp [rollbackBoth, tryUndoKeyGeneration, h1, h2] at h
      obtain ⟨he, hst⟩ := h
      subst he
      subst hst
      refine ⟨rfl, rfl, fun k hk => ?_⟩
      have hk0 := (List.mem_filter.mp hk).1
      have hcond := (List.mem_filter.mp hk).2
      refine ⟨hk0, fun hd => ?_⟩
      rcases hd with rfl | rfl
      · simp at hcond
      · simp at hcond

/-- The rollback sequence never yields a success result. -/
theorem rollbackBoth_ne_ok (env : GenEnv) (st : GenState) (tKeyId pqKeyId : Str)
    (source : Error) (f : Str) (st' : GenState) :
    rollbackBoth env st tKeyId pqKeyId source ≠ (.ok f, st') := by
  intro h
  have := congrArg Prod.fst h
  simp [rollbackBoth] at this

/-- Composition of the rollback characterization with the shape of the key
store at the rollback sites: starting from the base store extended by the two
generated keys, every surviving key is either a pre-existing one or one whose
deletion failure is reported. -/
theorem rollback_leaf (env : GenEnv) (st0 : GenState) (base : List Str)
    (tKeyId pqKeyId : Str) (source e : Error) (st' : GenState)
    (h : rollbackBoth env st0 tKeyId pqKeyId source = (.error e, st'))
    (hks : st0.keyStore = base ++ [tKeyId] ++ [pqKeyId]) :
    st'.doc = st0.doc ∧ st'.keyIdStore = st0.keyIdStore ∧
    ∀ k, k ∈ st'.keyStore → k ∈ base ∨ ∃ src, e = .undoOperationFailed src := by
  obtain ⟨hd, hkid, hmem⟩ := rollbackBoth_spec env st0 tKeyId pqKeyId source e st' h
  refine ⟨hd, hkid, fun k hk => ?_⟩
  obtain ⟨hk0, himp⟩ := hmem k hk
  rw [hks] at hk0
  rcases List.mem_append.mp hk0 with hk1 | hk2
  · rcases List.mem_append.mp hk1 with hb | ht
    · exact Or.inl hb
    · exact Or.inr (himp (Or.inl (List.mem_singleton.mp ht)))
  · exact Or.inr (himp (Or.inr (List.mem_singleton.mp hk2)))

/-- Inversion of a successful method insertion: no method with the same id was
present, and the new document is the old one with the method appended. -/
theorem insertMethod_ok_inv (doc : Document) (m : VerificationMethod) (scope : MethodScope)
    (doc2 : Document) (h : doc.insertMethod m scope = .ok doc2) :
    doc.methods.any (fun p => p.1.id == m.id) = false ∧
    doc2 = { doc with methods := doc.methods ++ [(m, scope)] } := by
  unfold Document.insertMethod at h
  split at h
  · simp at h
  next hany =>
    simp only [Except.ok.injEq] at h
    exact ⟨by simpa using hany, h.symm⟩

/-- Removing the freshly inserted method restores the original document. -/
theorem removeMethod_insert (doc : Document) (m : VerificationMethod) (scope : MethodScope)
    (hany : doc.methods.any (fun p => p.1.id == m.id) = false) :
    Document.removeMethod { doc with methods := doc.methods ++ [(m, scope)] } m.id = doc := by
  unfold Document.removeMethod
  rw [List.any_eq_false] at hany
  simp only [List.filter_append]
  have h1 : doc.methods.filter (fun p => !(p.1.id == m.id)) = doc.methods :=
    List.filter_eq_self.mpr (fun p hp => by simpa using hany p hp)
  have h2 : [(m, scope)].filter (fun p => !(p.1.id == m.id)) = ([] : List (VerificationMethod × MethodScope)) := by
    simp
  rw [h1, h2, List.append_nil]

/-- Inversion of a successful DID-URL join: the fragment argument starts with
a hash, and the remainder is the nonempty, hash-free fragment of the result. -/
theorem joinFragment_ok_inv (did frag : Str) (u : DIDUrl)
    (h : joinFragment did frag = .ok u) :
    ∃ rest, frag = '#' :: rest ∧ u = ⟨did, some rest⟩ ∧ rest ≠ [] ∧
      rest.all (fun c => !(c == '#')) = true := by
  unfold joinFragment at h
  split at h
  next _x rest =>
    split at h
    next hcond =>
      simp only [Except.ok.injEq] at h
      exact ⟨rest, rfl, h.symm, hcond.1, hcond.2⟩
    next hcond => simp at h
  next => simp at h

/-- C1 (amended): every failing generate_method_hybrid call leaves the
document and the key-id storage exactly as they were; a key generated by the
call is deleted when the failure arises at method construction, method
insertion or key-id insertion, and may then survive only when its own deletion
failed, in which case the returned error reports the undo failure; but on the
no-rollback error paths (key-storage failure during generation, fragment
resolution, DID-URL construction, missing method-id fragment, method-digest
construction) the generated keys remain in the key storage. -/
theorem generate_method_hybrid_rollback_amended (env : GenEnv) (st : GenState)
    (algId : CompositeAlgId) (fragment : Option Str) (scope : MethodScope)
    (e : Error) (st' : GenState)
    (h : generateMethodHybrid env st algId fragment scope = (.error e, st')) :
    st'.doc = st.doc ∧ st'.keyIdStore = st.keyIdStore ∧
    ∀ k, k ∈ st'.keyStore →
      k ∈ st.keyStore ∨ noRollbackError e = true ∨
      ∃ src, e = .undoOperationFailed src := by
  unfold generateMethodHybrid at h
  dsimp only at h
  split at h
  next u heqT =>
    rw [Prod.mk.injEq] at h
    obtain ⟨he, hst⟩ := h
    obtain rfl := Except.error.inj he
    obtain rfl := hst
    exact ⟨rfl, rfl, fun k _ => Or.inr (Or.inl rfl)⟩
  next tKeyId tJwk heqT =>
    split at h
    next u heqP =>
      rw [Prod.mk.injEq] at h
      obtain ⟨he, hst⟩ := h
      obtain rfl := Except.error.inj he
      obtain rfl := hst
      exact ⟨rfl, rfl, fun k _ => Or.inr (Or.inl rfl)⟩
    next pqKeyId pqJwk heqP =>
      split at h
      next hor =>
        rw [Prod.mk.injEq] at h
        obtain ⟨he, hst⟩ := h
        obtain rfl := Except.error.inj he
        obtain rfl := hst
        exact ⟨rfl, rfl, fun k _ => Or.inr (Or.inl rfl)⟩
      next givenFragment hor =>
        split at h
        next u2 hj =>
          rw [Prod.mk.injEq] at h
          obtain ⟨he, hst⟩ := h
          obtain rfl := Except.error.inj he
          obtain rfl := hst
          exact ⟨rfl, rfl, fun k _ => Or.inr (Or.inl rfl)⟩
        next id hj =>
          split at h
          · obtain ⟨hd, hkid, hmem⟩ :=
              rollback_leaf env _ st.keyStore tKeyId pqKeyId _ e st' h rfl
            exact ⟨hd, hkid, fun k hk =>
              (hmem k hk).elim Or.inl (fun hex => Or.inr (Or.inr hex))⟩
          next hbuild =>
            split at h
            · rw [Prod.mk.injEq] at h
              obtain ⟨he, hst⟩ := h
              obtain rfl := Except.error.inj he
              obtain rfl := hst
              exact ⟨rfl, rfl, fun k _ => Or.inr (Or.inl rfl)⟩
            next hdig =>
              split at h
              next hfragNone =>
                rw [Prod.mk.injEq] at h
                obtain ⟨he, hst⟩ := h
                obtain rfl := Except.error.inj he
                obtain rfl := hst
                exact ⟨rfl, rfl, fun k _ => Or.inr (Or.inl rfl)⟩
              next fragStr hfrag =>
                split at h
                next u3 hins =>
                  obtain ⟨hd, hkid, hmem⟩ :=
                    rollback_leaf env _ st.keyStore tKeyId pqKeyId _ e st' h rfl
                  exact ⟨hd, hkid, fun k hk =>
                    (hmem k hk).elim Or.inl (fun hex => Or.inr (Or.inr hex))⟩
                next doc2 hins =>
                  split at h
                  · obtain ⟨hany, hdoc2⟩ := insertMethod_ok_inv _ _ _ _ hins
                    obtain ⟨hd, hkid, hmem⟩ :=
                      rollback_leaf env _ st.keyStore tKeyId pqKeyId _ e st' h rfl
                    refine ⟨?_, hkid, fun k hk =>
                      (hmem k hk).elim Or.inl (fun hex => Or.inr (Or.inr hex))⟩
                    refine hd.trans ?_
                    rw [hdoc2]
                    exact removeMethod_insert _ _ _ hany
                  next hkif =>
                    rw [Prod.mk.injEq] at h
                    obtain ⟨he, _⟩ := h
                    exact absurd he (by simp)

/-- C1 counterexample: with both key generations succeeding, no caller
fragment and kid-less JWKs, generate_method_hybrid fails during fragment
resolution, yet both freshly generated keys remain in the key storage and the
returned error reports no deletion failure. -/
theorem generate_method_hybrid_no_rollback_counterexample :
    generateMethodHybrid genEnvNoKid stEmpty .idMldsa44Ed25519Sha512 none
      .verificationMethod =
      (.error (.verificationMethodConstructionError
        (.invalidMethod "an explicit fragment or JWK kid is required")),
       { doc := docEmpty, keyStore := ["t-key-1".toList, "pq-key-1".toList],
         keyIdStore := [] }) ∧
    "t-key-1".toList ∈ (generateMethodHybrid genEnvNoKid stEmpty .idMldsa44Ed25519Sha512
      none .verificationMethod).2.keyStore ∧
    "pq-key-1".toList ∈ (generateMethodHybrid genEnvNoKid stEmpty .idMldsa44Ed25519Sha512
      none .verificationMethod).2.keyStore ∧
    ∀ src, (generateMethodHybrid genEnvNoKid stEmpty .idMldsa44Ed25519Sha512 none
      .verificationMethod).1 ≠ .error (.undoOperationFailed src) := by
  refine ⟨by rfl, by decide, by decide, fun src hcontra => ?_⟩
  have h0 : (generateMethodHybrid genEnvNoKid stEmpty .idMldsa44Ed25519Sha512 none
      .verificationMethod).1 =
      .error (.verificationMethodConstructionError
        (.invalidMethod "an explicit fragment or JWK kid is required")) := rfl
  rw [h0] at hcontra
  exact absurd hcontra (by simp)

/-- Witness for C1 (amended) at concrete inputs: a failing key-id insertion is
rolled back completely. -/
theorem generate_method_hybrid_rollback_amended_witness :
    (GenState.mk docEmpty [] []).doc = stEmpty.doc ∧
    (GenState.mk docEmpty [] []).keyIdStore = stEmpty.keyIdStore ∧
    ∀ k, k ∈ (GenState.mk docEmpty [] []).keyStore →
      k ∈ stEmpty.keyStore ∨ noRollbackError .keyIdStorageError = true ∨
      ∃ src, Error.keyIdStorageError = .undoOperationFailed src :=
  generate_method_hybrid_rollback_amended genEnvInsertFail stEmpty .idMldsa44Ed25519Sha512
    (some "#k1".toList) .verificationMethod .keyIdStorageError
    (GenState.mk docEmpty [] []) (by rfl)

/-- C10: every successful generate_method_hybrid call returns the fragment
component of the inserted method's DID URL, and that fragment never starts
with a hash character. -/
theorem generate_method_hybrid_fragment_no_hash (env : GenEnv) (st : GenState)
    (algId : CompositeAlgId) (fragment : Option Str) (scope : MethodScope)
    (f : Str) (st' : GenState)
    (h : generateMethodHybrid env st algId fragment scope = (.ok f, st')) :
    f.head? ≠ some '#' ∧
    ∃ p, p ∈ st'.doc.methods ∧ p.1.id.fragment = some f := by
  unfold generateMethodHybrid at h
  dsimp only at h
  split at h
  next u heqT => simp at h
  next tKeyId tJwk heqT =>
    split at h
    next u heqP => simp at h
    next pqKeyId pqJwk heqP =>
      split at h
      next hor => simp at h
      next givenFragment hor =>
        split at h
        next u2 hj => simp at h
        next id hj =>
          split at h
          · exact absurd h (rollbackBoth_ne_ok _ _ _ _ _ _ _)
          next hbuild =>
            split at h
            · simp at h
            next hdig =>
              split at h
              next hfragNone => simp at h
              next fragStr hfrag =>
                split at h
                next u3 hins => exact absurd h (rollbackBoth_ne_ok _ _ _ _ _ _ _)
                next doc2 hins =>
                  split at h
                  · exact absurd h (rollbackBoth_ne_ok _ _ _ _ _ _ _)
                  next hkif =>
                    rw [Prod.mk.injEq] at h
                    obtain ⟨he, hst⟩ := h
                    obtain rfl := Except.ok.inj he
                    obtain rfl := hst
                    obtain ⟨rest, hfragEq, hid, hne, hall⟩ := joinFragment_ok_inv _ _ _ hj
                    subst hid
                    have hfs : rest = fragStr := by simpa using hfrag
                    subst hfs
                    obtain ⟨hany, hdoc2⟩ := insertMethod_ok_inv _ _ _ _ hins
                    constructor
                    · cases rest with
                      | nil => exact absurd rfl hne
                      | cons c cs =>
                        intro hcontra
                        have hc : c = '#' := by simpa using hcontra
                        subst hc
                        simp at hall
                    · have hgoal : ∃ p, p ∈ doc2.methods ∧ p.1.id.fragment = some rest := by
                        rw [hdoc2]
                        exact ⟨(VerificationMethod.mk ⟨st.doc.did, some rest⟩ st.doc.did
                            "CompositeSignaturePublicKey".toList
                            (.compositePublicKey algId tJwk pqJwk), scope),
                          by simp, rfl⟩
                      exact hgoal

/-- Witness for C10 at concrete inputs: caller fragment hash-k1 yields the
returned fragment k1, without the hash, and the method is inserted under that
fragment. -/
theorem generate_method_hybrid_fragment_no_hash_witness :
    ("k1".toList.head? ≠ some '#') ∧
    ∃ p, p ∈ (generateMethodHybrid genEnvNoKid stEmpty .idMldsa44Ed25519Sha512
        (some "#k1".toList) .verificationMethod).2.doc.methods ∧
      p.1.id.fragment = some "k1".toList :=
  generate_method_hybrid_fragment_no_hash genEnvNoKid stEmpty .idMldsa44Ed25519Sha512
    (some "#k1".toList) .verificationMethod "k1".toList
    (generateMethodHybrid genEnvNoKid stEmpty .idMldsa44Ed25519Sha512
      (some "#k1".toList) .verificationMethod).2 (by rfl)
